import Mathlib

/-!
# Verification of the Social Suit bootstrap (src/main.py)

A shallow embedding of the application bootstrap file `src/main.py`.
The module-level statements of that file (FastAPI construction, middleware
registration, hook registration, route registration) are rendered as a pure
construction of an `App` value, mirroring the order of the statements in the
source.  Route handlers become Lean functions from an external-world state to
a JSON-like value.  Lifecycle hooks (`connect_services`, `shutdown_services`)
become pure functions from an environment describing the outside world
(reachability of stores, success of close calls) to an explicit result record.

The rate limiter (`app.services.security.rate_limiter`) is imported by the
bootstrap but its source is not part of the repository excerpt; it is
modelled from the specification (see `RateLimiter.check` below).
-/

namespace SocialSuit

/-- JSON-like values returned by the route handlers of `src/main.py`. -/
inductive Json where
  | str : String → Json
  | obj : List (String × Json) → Json
  | arr : List Json → Json

/-- Look up a top-level key of a JSON object (first match). -/
def Json.lookup : Json → String → Option Json
  | .obj fields, k => (fields.find? (fun p => p.1 = k)).map Prod.snd
  | _, _ => none

/-- External-world state a request handler could in principle observe:
whether each backing store currently holds a live connection.  The handlers
in `src/main.py` take no arguments and read no state; modelling them as
functions of this record lets us state that their output is independent of
it. -/
structure WorldState where
  postgresConnected : Bool
  mongoConnected : Bool
  redisConnected : Bool
  deriving DecidableEq, Repr

/-- Handler of the first `@app.get("/health")` registration
(src/main.py lines 69-71): `async def health_check(): return {"status": "ok"}`. -/
def health_check (_ : WorldState) : Json :=
  .obj [("status", .str "ok")]

/-- Handler of the second `@app.get("/health")` registration
(src/main.py lines 211-213): `def health_check(): return {"status": "ok"}`.
In Python both functions are named `health_check`; the second shadows the
first name but both route registrations remain. -/
def health_check' (_ : WorldState) : Json :=
  .obj [("status", .str "ok")]

/-- Handler of `@app.get("/")` (src/main.py lines 193-206). -/
def home (_ : WorldState) : Json :=
  .obj
    [ ("msg", .str "🚀 Social Suit API")
    , ("version", .str "2.0.0")
    , ("services", .arr
        [ .obj
            [ ("name", .str "social-suit")
            , ("prefix", .str "/api/v1/social-suit")
            , ("docs", .str "/docs") ] ])
    , ("health_check", .str "/health") ]

/-- Identifiers of the route handler functions defined in `src/main.py`. -/
inductive HandlerId where
  | health_check
  | home
  | health_check'
  deriving DecidableEq, Repr

/-- Interpretation of a handler identifier as its handler function. -/
def handlerFun : HandlerId → WorldState → Json
  | .health_check => health_check
  | .home => home
  | .health_check' => health_check'

/-- The security settings read by `get_security_settings()`
(CORS allow-lists, configuration-driven). -/
structure SecuritySettings where
  cors_allow_origins : List String
  cors_allow_credentials : Bool
  cors_allow_methods : List String
  cors_allow_headers : List String
  deriving DecidableEq, Repr

/-- The constructor metadata of the `FastAPI(...)` call
(src/main.py lines 60-66). -/
structure AppDecl where
  title : String
  description : String
  version : String
  docs_url : Option String
  redoc_url : Option String
  deriving DecidableEq, Repr

/-- The `FastAPI(...)` construction of src/main.py lines 60-66.  Python's
`"/docs" if not get_security_settings().cors_allow_origins else None`
yields `"/docs"` exactly when the origins list is falsy, i.e. empty. -/
def mkAppDecl (s : SecuritySettings) : AppDecl :=
  { title := "Social Suit API"
  , description := "A comprehensive social media management platform"
  , version := "1.0.0"
  , docs_url := if s.cors_allow_origins.isEmpty then some "/docs" else none
  , redoc_url := if s.cors_allow_origins.isEmpty then some "/redoc" else none }

/-- The middleware classes that `src/main.py` mentions. -/
inductive Middleware where
  | securityMiddleware
  | sanitizationMiddleware
  | corsMiddleware
  deriving DecidableEq, Repr

/-- Startup hook functions defined in `src/main.py`.  `init_security` stands
for the source function `initialize_security` (lines 96-126). -/
inductive StartupHook where
  | connect_services
  | init_security
  deriving DecidableEq, Repr

/-- Shutdown hook functions defined in `src/main.py`. -/
inductive ShutdownHook where
  | shutdown_services
  deriving DecidableEq, Repr

/-- A route registered directly on the app by a decorator in `src/main.py`. -/
structure Route where
  path : String
  handler : HandlerId
  deriving DecidableEq, Repr

/-- The application object accumulated by the module-level statements of
`src/main.py`.  `middlewares` is kept head-outermost: Starlette's
`add_middleware` inserts at the front of the user-middleware stack, so the
middleware added last wraps all the earlier ones. -/
structure App where
  decl : AppDecl
  middlewares : List Middleware
  routes : List Route
  mountedRouters : List (String × String)
  startupHooks : List StartupHook
  shutdownHooks : List ShutdownHook
  healthRoutesAdded : Bool
  deriving DecidableEq, Repr

/-- `app.add_middleware(M)`: prepend, so the last-added middleware is
outermost. -/
def App.add_middleware (a : App) (m : Middleware) : App :=
  { a with middlewares := m :: a.middlewares }

/-- A `@app.get(path)` decorator application: append in registration order. -/
def App.addGet (a : App) (p : String) (h : HandlerId) : App :=
  { a with routes := a.routes ++ [⟨p, h⟩] }

/-- `app.include_router(r, prefix=p)`: record the mount point and router
name; the routers' own routes are external collaborators, not part of this
file. -/
def App.include_router (a : App) (p : String) (name : String) : App :=
  { a with mountedRouters := a.mountedRouters ++ [(p, name)] }

/-- `@app.on_event("startup")` decorator application. -/
def App.on_startup (a : App) (h : StartupHook) : App :=
  { a with startupHooks := a.startupHooks ++ [h] }

/-- `@app.on_event("shutdown")` decorator application. -/
def App.on_shutdown (a : App) (h : ShutdownHook) : App :=
  { a with shutdownHooks := a.shutdownHooks ++ [h] }

/-- `add_health_routes(app)` (imported from `app.api.health`, source not in
the excerpt): recorded as a flag, since its routes are external. -/
def add_health_routes (a : App) : App :=
  { a with healthRoutesAdded := true }

/-- The source function `initialize_security` (src/main.py lines 96-126),
embedded as the app transformation it would perform if it were ever called:
on success of the Redis/config initialization it adds `SecurityMiddleware`
and then `SanitizationMiddleware`; on failure its `except` branch logs and
leaves the app unchanged.  Note that this function is defined in the source
but never invoked and never attached to any startup hook. -/
def init_security (a : App) (setupOk : Bool) : App :=
  if setupOk then
    (a.add_middleware .securityMiddleware).add_middleware .sanitizationMiddleware
  else a

/-- The module-level execution of `src/main.py`, in statement order:
FastAPI construction; `@app.get("/health") health_check`;
`@app.on_event("startup") connect_services`;
(`initialize_security` is *defined* here but not registered or called);
`@app.on_event("shutdown") shutdown_services`;
`app.add_middleware(CORSMiddleware, ...)`;
the seventeen `app.include_router(...)` calls; `add_health_routes(app)`;
`@app.get("/") home`; `@app.get("/health") health_check` (second). -/
def mainModule (s : SecuritySettings) : App :=
  let a : App :=
    { decl := mkAppDecl s
    , middlewares := []
    , routes := []
    , mountedRouters := []
    , startupHooks := []
    , shutdownHooks := []
    , healthRoutesAdded := false }
  let a := a.addGet "/health" .health_check
  let a := a.on_startup .connect_services
  let a := a.on_shutdown .shutdown_services
  let a := a.add_middleware .corsMiddleware
  let a := a.include_router "/api/v1/social-suit" "content_router"
  let a := a.include_router "/api/v1/social-suit" "schedule_router"
  let a := a.include_router "/api/v1/social-suit" "scheduled_post_router"
  let a := a.include_router "/api/v1/social-suit" "analytics_router"
  let a := a.include_router "/api/v1/social-suit" "analytics_api_router"
  let a := a.include_router "/api/v1/social-suit" "recycle_router"
  let a := a.include_router "/api/v1/social-suit" "ab_test_router"
  let a := a.include_router "/api/v1/social-suit" "thumbnail_router"
  let a := a.include_router "/api/v1/social-suit" "engage_router"
  let a := a.include_router "/api/v1/social-suit" "customize_router"
  let a := a.include_router "/api/v1/social-suit" "media_router"
  let a := a.include_router "/api/v1/social-suit" "connect.router"
  let a := a.include_router "/api/v1/social-suit" "callback.router"
  let a := a.include_router "/api/v1/social-suit" "wallet_auth_router"
  let a := a.include_router "/api/v1/social-suit" "email_auth_router"
  let a := a.include_router "/api/v1/social-suit/auth" "protected_router"
  let a := a.include_router "/api/v1/social-suit" "connect_router"
  let a := add_health_routes a
  let a := a.addGet "/" .home
  let a := a.addGet "/health" .health_check'
  a

/-- The processing stages a request can pass through. -/
inductive Stage where
  | rateCheck
  | sanitize
  | corsStage
  | dispatch
  deriving DecidableEq, Repr

/-- The stages contributed by each middleware class (per the spec's pipeline
description: SecurityMiddleware performs the rate-limit check,
SanitizationMiddleware performs sanitization). -/
def middlewareStages : Middleware → List Stage
  | .securityMiddleware => [.rateCheck]
  | .sanitizationMiddleware => [.sanitize]
  | .corsMiddleware => [.corsStage]

/-- The ordered stage trace an inbound request traverses: the registered
middlewares outermost-first, then router dispatch. -/
def requestTrace (a : App) : List Stage :=
  (a.middlewares.map middlewareStages).flatten ++ [.dispatch]

/-- FastAPI dispatch for a GET request: the first registered route whose
path matches wins. -/
def dispatchGet (a : App) (p : String) : Option HandlerId :=
  (a.routes.find? (fun r => r.path = p)).map Route.handler

/-! ## Lifecycle hooks -/

/-- Reachability of the external stores at startup time. -/
structure StartupEnv where
  dbReachable : Bool
  redisReachable : Bool
  deriving DecidableEq, Repr

/-- Observable outcome of the startup hook: which stores got connected,
whether the hook raised out of its body, and the messages it printed. -/
structure StartupResult where
  dbConnected : Bool
  redisConnected : Bool
  raised : Bool
  logs : List String
  deriving DecidableEq, Repr

/-- The startup hook `connect_services` (src/main.py lines 76-94).  Its body
prints four progress messages and a success message; the actual
`init_db_pool()` and `init_redis()` calls are commented out in the source
("development mode"), so no store is contacted, nothing can fail, and the
surrounding try/except never fires regardless of store reachability. -/
def connect_services (_ : StartupEnv) : StartupResult :=
  { dbConnected := false
  , redisConnected := false
  , raised := false
  , logs :=
      [ "🔄 Initializing database connection..."
      , "✅ Database connection skipped (development mode)"
      , "🔄 Initializing Redis connection..."
      , "✅ Redis connection skipped (development mode)"
      , "🚀 All services initialized successfully!" ] }

/-- The stores whose connections the shutdown hook releases. -/
inductive Store where
  | postgres
  | mongo
  | redis
  deriving DecidableEq, Repr

/-- Whether each store's close call succeeds. -/
structure ShutdownEnv where
  pgCloseOk : Bool
  mongoCloseOk : Bool
  redisCloseOk : Bool
  deriving DecidableEq, Repr

/-- Success of the close call for one store. -/
def closeOk (e : ShutdownEnv) : Store → Bool
  | .postgres => e.pgCloseOk
  | .mongo => e.mongoCloseOk
  | .redis => e.redisCloseOk

/-- Run a sequence of close calls one after another, with no exception
handling, as the body of `shutdown_services` does: each close is attempted
in order; the first failure raises out of the function, and the remaining
closes are never attempted.  Returns the list of attempted closes in order
and whether an exception propagated. -/
def runCloses (e : ShutdownEnv) : List Store → List Store × Bool
  | [] => ([], false)
  | s :: rest =>
    if closeOk e s then
      let r := runCloses e rest
      (s :: r.1, r.2)
    else ([s], true)

/-- The fixed order in which `shutdown_services` (src/main.py lines 131-141)
closes the connections: PostgreSQL, then MongoDB, then Redis. -/
def shutdownOrder : List Store := [.postgres, .mongo, .redis]

/-- The shutdown hook `shutdown_services` (src/main.py lines 131-141):
`await close_db_pool()`, `await MongoDBManager.close_connection()`,
`await RedisManager.close()`, in that order, with no try/except. -/
def shutdown_services (e : ShutdownEnv) : List Store × Bool :=
  runCloses e shutdownOrder

/-! ## Rate limiter

Modelled from the spec: the module `app.services.security.rate_limiter`
(imported by src/main.py line 16, constructed at lines 103-105) is not part
of the repository excerpt.  Sections 3 and 4.1 of the specification describe
it: a `RateLimitConfig` holds the window duration and the max requests per
window; `check` uses fixed window buckets keyed by `floor(now / window
size)`, atomically increments the per-(identity, bucket) counter, and denies
with a retry-after of the time remaining in the window when the incremented
count exceeds the configured max, otherwise allows. -/

/-- Modelled from the spec: rate-limit configuration (window duration in
seconds, max requests per window).  Burst allowance and per-route overrides
are listed by the spec but play no role in the core windowed-counting
algorithm of section 4.1, which compares the incremented count against the
configured max. -/
structure RateLimitConfig where
  window_seconds : Nat
  max_requests : Nat
  deriving DecidableEq, Repr

/-- Modelled from the spec: the decision produced by a security check. -/
structure SecurityDecision where
  allow : Bool
  reason : Option String
  retry_after : Option Nat
  deriving DecidableEq, Repr

/-- Modelled from the spec: the shared counter store, mapping an identity
and a window bucket to the current request count. -/
def CounterStore : Type := String → Nat → Nat

/-- A counter store holding no records. -/
def emptyStore : CounterStore := fun _ _ => 0

/-- Modelled from the spec: the rate limiter object constructed at
src/main.py line 105, holding its configuration. -/
structure RateLimiter where
  config : RateLimitConfig
  deriving DecidableEq, Repr

/-- Fixed-size window bucket of a timestamp: `floor(now / window_size)`. -/
def windowBucket (cfg : RateLimitConfig) (now : Nat) : Nat :=
  now / cfg.window_seconds

/-- Seconds remaining in the current window at time `now`. -/
def remainingWindow (cfg : RateLimitConfig) (now : Nat) : Nat :=
  cfg.window_seconds - now % cfg.window_seconds

/-- Modelled from the spec: `check(identity, route)`.  Fetch-or-create the
record for `(identity, current bucket)`, atomically increment it, then deny
with retry-after equal to the time remaining in the window if the resulting
count exceeds the configured max, else allow.  Returns the updated store
and the decision. -/
def RateLimiter.check (rl : RateLimiter) (store : CounterStore)
    (identity : String) (now : Nat) : CounterStore × SecurityDecision :=
  let b := windowBucket rl.config now
  let c := store identity b + 1
  let store' : CounterStore := fun i bk =>
    if i = identity ∧ bk = b then c else store i bk
  ( store'
  , if rl.config.max_requests < c then
      { allow := false
      , reason := some "rate_limit_exceeded"
      , retry_after := some (remainingWindow rl.config now) }
    else
      { allow := true, reason := none, retry_after := none } )

/-- The counter store after `n` requests from `identity`, the `i`-th made at
time `times i`, starting from the empty store. -/
def storeAfter (rl : RateLimiter) (identity : String) (times : Nat → Nat) :
    Nat → CounterStore
  | 0 => emptyStore
  | n + 1 => (rl.check (storeAfter rl identity times n) identity (times n)).1

/-- The decision the limiter returns to request number `n` (0-indexed, i.e.
the request arriving after `n` earlier ones), made at time `times n`. -/
def decisionAt (rl : RateLimiter) (identity : String) (times : Nat → Nat)
    (n : Nat) : SecurityDecision :=
  (rl.check (storeAfter rl identity times n) identity (times n)).2

/-! ## Theorems -/

/-- C1: the spec claims every request passes the rate-limit check, then
sanitization, then dispatch, with SecurityMiddleware and
SanitizationMiddleware registered at startup.  Evaluating the bootstrap
shows the opposite: the trace of every request is CORS then dispatch only;
neither SecurityMiddleware nor SanitizationMiddleware is ever registered,
because `initialize_security` is never invoked.  Moreover, even if it ran,
it would add SecurityMiddleware before SanitizationMiddleware, making
Sanitization (not Security) the outermost user middleware. -/
theorem security_stages_never_installed (s : SecuritySettings) :
    requestTrace (mainModule s) = [Stage.corsStage, Stage.dispatch] ∧
    Stage.rateCheck ∉ requestTrace (mainModule s) ∧
    Stage.sanitize ∉ requestTrace (mainModule s) ∧
    Middleware.securityMiddleware ∉ (mainModule s).middlewares ∧
    Middleware.sanitizationMiddleware ∉ (mainModule s).middlewares ∧
    (init_security (mainModule s) true).middlewares =
      [Middleware.sanitizationMiddleware, Middleware.securityMiddleware,
       Middleware.corsMiddleware] := by
  refine ⟨rfl, ?_, ?_, ?_, ?_, rfl⟩
  · show Stage.rateCheck ∉ [Stage.corsStage, Stage.dispatch]
    decide
  · show Stage.sanitize ∉ [Stage.corsStage, Stage.dispatch]
    decide
  · show Middleware.securityMiddleware ∉ [Middleware.corsMiddleware]
    decide
  · show Middleware.sanitizationMiddleware ∉ [Middleware.corsMiddleware]
    decide

/-- C1 witness at a concrete settings value. -/
theorem security_stages_never_installed_witness :
    requestTrace (mainModule ⟨[], true, ["*"], ["*"]⟩) =
      [Stage.corsStage, Stage.dispatch] ∧
    Stage.rateCheck ∉ requestTrace (mainModule ⟨[], true, ["*"], ["*"]⟩) ∧
    Stage.sanitize ∉ requestTrace (mainModule ⟨[], true, ["*"], ["*"]⟩) ∧
    Middleware.securityMiddleware ∉ (mainModule ⟨[], true, ["*"], ["*"]⟩).middlewares ∧
    Middleware.sanitizationMiddleware ∉ (mainModule ⟨[], true, ["*"], ["*"]⟩).middlewares ∧
    (init_security (mainModule ⟨[], true, ["*"], ["*"]⟩) true).middlewares =
      [Middleware.sanitizationMiddleware, Middleware.securityMiddleware,
       Middleware.corsMiddleware] :=
  security_stages_never_installed ⟨[], true, ["*"], ["*"]⟩

/-- C2: `initialize_security` is not attached to any startup hook — the only
registered startup hook is `connect_services` — so the only middleware the
bootstrap ever adds is CORSMiddleware. -/
theorem init_security_not_registered (s : SecuritySettings) :
    (mainModule s).startupHooks = [StartupHook.connect_services] ∧
    StartupHook.init_security ∉ (mainModule s).startupHooks ∧
    (mainModule s).middlewares = [Middleware.corsMiddleware] := by
  refine ⟨rfl, ?_, rfl⟩
  show StartupHook.init_security ∉ [StartupHook.connect_services]
  decide

/-- C2 witness at a concrete settings value. -/
theorem init_security_not_registered_witness :
    (mainModule ⟨[], true, ["*"], ["*"]⟩).startupHooks =
      [StartupHook.connect_services] ∧
    StartupHook.init_security ∉ (mainModule ⟨[], true, ["*"], ["*"]⟩).startupHooks ∧
    (mainModule ⟨[], true, ["*"], ["*"]⟩).middlewares = [Middleware.corsMiddleware] :=
  init_security_not_registered ⟨[], true, ["*"], ["*"]⟩

/-- C3 counterexample: with an empty `cors_allow_origins` list the FastAPI
constructor sets `docs_url` to `"/docs"` — the documentation is enabled, not
disabled as the claim states; with a non-empty origins list it is `None`. -/
theorem docs_enabled_with_empty_origins :
    (mkAppDecl ⟨[], true, ["*"], ["*"]⟩).docs_url = some "/docs" ∧
    ¬ (mkAppDecl ⟨[], true, ["*"], ["*"]⟩).docs_url = none ∧
    (mkAppDecl ⟨["https://app.example.com"], true, ["*"], ["*"]⟩).docs_url = none := by
  refine ⟨rfl, ?_, rfl⟩
  decide

/-- C3 (amended): the documentation endpoints are disabled (`None`) exactly
when `cors_allow_origins` is non-empty; with no configured origins the docs
and redoc endpoints are enabled at `/docs` and `/redoc`. -/
theorem docs_disabled_iff_origins_nonempty (s : SecuritySettings) :
    ((mkAppDecl s).docs_url = none ↔ s.cors_allow_origins ≠ []) ∧
    ((mkAppDecl s).redoc_url = none ↔ s.cors_allow_origins ≠ []) ∧
    (s.cors_allow_origins = [] →
      (mkAppDecl s).docs_url = some "/docs" ∧
      (mkAppDecl s).redoc_url = some "/redoc") := by
  obtain ⟨o, c, m, h⟩ := s
  cases o <;> simp [mkAppDecl]

/-- C3 witness at a concrete settings value. -/
theorem docs_disabled_iff_origins_nonempty_witness :
    ((mkAppDecl ⟨["https://x.example"], false, [], []⟩).docs_url = none ↔
      (["https://x.example"] : List String) ≠ []) ∧
    ((mkAppDecl ⟨["https://x.example"], false, [], []⟩).redoc_url = none ↔
      (["https://x.example"] : List String) ≠ []) ∧
    ((["https://x.example"] : List String) = [] →
      (mkAppDecl ⟨["https://x.example"], false, [], []⟩).docs_url = some "/docs" ∧
      (mkAppDecl ⟨["https://x.example"], false, [], []⟩).redoc_url = some "/redoc") :=
  docs_disabled_iff_origins_nonempty ⟨["https://x.example"], false, [], []⟩

/-- C4 counterexample: when the PostgreSQL close fails, the MongoDB and
Redis closes are never attempted and the exception propagates — the
shutdown sequence does not complete, contradicting best-effort release. -/
theorem shutdown_stops_at_first_failure :
    shutdown_services ⟨false, true, true⟩ = ([Store.postgres], true) ∧
    Store.mongo ∉ (shutdown_services ⟨false, true, true⟩).1 ∧
    Store.redis ∉ (shutdown_services ⟨false, true, true⟩).1 := by
  refine ⟨rfl, ?_, ?_⟩ <;> decide

/-- C4 (amended): `shutdown_services` closes the connections in the fixed
order PostgreSQL, MongoDB, Redis (the same direction as the startup
sequence, not reverse), with no exception handling: a failing close
propagates and prevents every remaining release; only when all three closes
succeed does the sequence complete. -/
theorem shutdown_forward_order_and_abort (e : ShutdownEnv) :
    (e.pgCloseOk = false → shutdown_services e = ([Store.postgres], true)) ∧
    (e.pgCloseOk = true → e.mongoCloseOk = false →
      shutdown_services e = ([Store.postgres, Store.mongo], true)) ∧
    (e.pgCloseOk = true → e.mongoCloseOk = true → e.redisCloseOk = false →
      shutdown_services e = ([Store.postgres, Store.mongo, Store.redis], true)) ∧
    (e.pgCloseOk = true → e.mongoCloseOk = true → e.redisCloseOk = true →
      shutdown_services e = ([Store.postgres, Store.mongo, Store.redis], false)) := by
  obtain ⟨p, m, r⟩ := e
  cases p <;> cases m <;> cases r <;> refine ⟨?_, ?_, ?_, ?_⟩ <;> decide

/-- C4 witness: with all closes succeeding the full order is attempted and
nothing propagates. -/
theorem shutdown_forward_order_and_abort_witness :
    shutdown_services ⟨true, true, true⟩ =
      ([Store.postgres, Store.mongo, Store.redis], false) :=
  (shutdown_forward_order_and_abort ⟨true, true, true⟩).2.2.2 rfl rfl rfl

/-- C5 counterexample: with both stores unreachable, `connect_services`
prints exactly the same messages as with both stores reachable — no failure
is caught or logged per store (nothing about the failure is logged at all,
and no store is ever connected even when reachable, because the connection
calls are commented out). -/
theorem startup_failure_never_logged :
    (connect_services ⟨false, false⟩).logs = (connect_services ⟨true, true⟩).logs ∧
    (connect_services ⟨false, false⟩).raised = false ∧
    (connect_services ⟨true, true⟩).dbConnected = false ∧
    (connect_services ⟨true, true⟩).redisConnected = false :=
  ⟨rfl, rfl, rfl, rfl⟩

/-- C5 (amended): store initialization is skipped at startup, so an
unreachable store causes no failure and nothing store-specific is logged
(the log output is independent of reachability); the startup hook never
raises, the application starts, `GET /health` returns the OK payload, and
requests are allowed since no rate-limit stage is installed. -/
theorem degraded_startup_fail_open (env : StartupEnv) (s : SecuritySettings)
    (w : WorldState) :
    (connect_services env).raised = false ∧
    (connect_services env).logs = (connect_services ⟨true, true⟩).logs ∧
    (connect_services env).dbConnected = false ∧
    (connect_services env).redisConnected = false ∧
    handlerFun HandlerId.health_check w = Json.obj [("status", Json.str "ok")] ∧
    Stage.rateCheck ∉ requestTrace (mainModule s) := by
  refine ⟨rfl, rfl, rfl, rfl, rfl, ?_⟩
  show Stage.rateCheck ∉ [Stage.corsStage, Stage.dispatch]
  decide

/-- C5 witness at concrete environment, settings and world values. -/
theorem degraded_startup_fail_open_witness :
    (connect_services ⟨false, false⟩).raised = false ∧
    (connect_services ⟨false, false⟩).logs = (connect_services ⟨true, true⟩).logs ∧
    (connect_services ⟨false, false⟩).dbConnected = false ∧
    (connect_services ⟨false, false⟩).redisConnected = false ∧
    handlerFun HandlerId.health_check ⟨false, false, false⟩ =
      Json.obj [("status", Json.str "ok")] ∧
    Stage.rateCheck ∉ requestTrace (mainModule ⟨[], true, ["*"], ["*"]⟩) :=
  degraded_startup_fail_open ⟨false, false⟩ ⟨[], true, ["*"], ["*"]⟩
    ⟨false, false, false⟩

/-- C7: dispatching `GET /health` selects the first registered
`health_check` handler, whose response is the static `{"status": "ok"}`
payload, independent of the external-world state. -/
theorem health_check_static_ok (s : SecuritySettings) (w : WorldState) :
    dispatchGet (mainModule s) "/health" = some HandlerId.health_check ∧
    handlerFun HandlerId.health_check w = Json.obj [("status", Json.str "ok")] ∧
    (∀ w' : WorldState,
      handlerFun HandlerId.health_check w = handlerFun HandlerId.health_check w') :=
  ⟨rfl, rfl, fun _ => rfl⟩

/-- C7 witness at concrete settings and world values. -/
theorem health_check_static_ok_witness :
    dispatchGet (mainModule ⟨[], true, ["*"], ["*"]⟩) "/health" =
      some HandlerId.health_check ∧
    handlerFun HandlerId.health_check ⟨false, true, false⟩ =
      Json.obj [("status", Json.str "ok")] ∧
    (∀ w' : WorldState,
      handlerFun HandlerId.health_check ⟨false, true, false⟩ =
        handlerFun HandlerId.health_check w') :=
  health_check_static_ok ⟨[], true, ["*"], ["*"]⟩ ⟨false, true, false⟩

/-- C8: dispatching `GET /` selects the `home` handler, whose response
carries the service name, the version string "2.0.0", the mounted prefix
"/api/v1/social-suit", and the docs path "/docs", for every world state. -/
theorem root_endpoint_metadata (s : SecuritySettings) (w : WorldState) :
    dispatchGet (mainModule s) "/" = some HandlerId.home ∧
    (handlerFun HandlerId.home w).lookup "msg" = some (Json.str "🚀 Social Suit API") ∧
    (handlerFun HandlerId.home w).lookup "version" = some (Json.str "2.0.0") ∧
    (handlerFun HandlerId.home w).lookup "services" =
      some (Json.arr
        [ Json.obj
            [ ("name", Json.str "social-suit")
            , ("prefix", Json.str "/api/v1/social-suit")
            , ("docs", Json.str "/docs") ] ]) ∧
    (handlerFun HandlerId.home w).lookup "health_check" = some (Json.str "/health") :=
  ⟨rfl, rfl, rfl, rfl, rfl⟩

/-- C8 witness at concrete settings and world values. -/
theorem root_endpoint_metadata_witness :
    dispatchGet (mainModule ⟨[], true, ["*"], ["*"]⟩) "/" = some HandlerId.home ∧
    (handlerFun HandlerId.home ⟨true, true, true⟩).lookup "msg" =
      some (Json.str "🚀 Social Suit API") ∧
    (handlerFun HandlerId.home ⟨true, true, true⟩).lookup "version" =
      some (Json.str "2.0.0") ∧
    (handlerFun HandlerId.home ⟨true, true, true⟩).lookup "services" =
      some (Json.arr
        [ Json.obj
            [ ("name", Json.str "social-suit")
            , ("prefix", Json.str "/api/v1/social-suit")
            , ("docs", Json.str "/docs") ] ]) ∧
    (handlerFun HandlerId.home ⟨true, true, true⟩).lookup "health_check" =
      some (Json.str "/health") :=
  root_endpoint_metadata ⟨[], true, ["*"], ["*"]⟩ ⟨true, true, true⟩

/-- C9: the version in the FastAPI constructor metadata is "1.0.0" while the
root endpoint reports "2.0.0"; the two version strings are not equal. -/
theorem version_metadata_mismatch (s : SecuritySettings) (w : WorldState) :
    (mainModule s).decl.version = "1.0.0" ∧
    (handlerFun HandlerId.home w).lookup "version" = some (Json.str "2.0.0") ∧
    ("2.0.0" : String) ≠ "1.0.0" := by
  refine ⟨rfl, rfl, ?_⟩
  decide

/-- C9 witness at concrete settings and world values. -/
theorem version_metadata_mismatch_witness :
    (mainModule ⟨[], true, ["*"], ["*"]⟩).decl.version = "1.0.0" ∧
    (handlerFun HandlerId.home ⟨false, false, true⟩).lookup "version" =
      some (Json.str "2.0.0") ∧
    ("2.0.0" : String) ≠ "1.0.0" :=
  version_metadata_mismatch ⟨[], true, ["*"], ["*"]⟩ ⟨false, false, true⟩

/-- C10: the path "/health" is registered twice, with the two distinct
handlers `health_check` and `health_check'`, and the two handlers return the
same response on every input. -/
theorem health_double_registration_equiv (s : SecuritySettings) :
    ((mainModule s).routes.filter (fun r => r.path = "/health")).map Route.handler =
      [HandlerId.health_check, HandlerId.health_check'] ∧
    HandlerId.health_check ≠ HandlerId.health_check' ∧
    (∀ w : WorldState,
      handlerFun HandlerId.health_check w = handlerFun HandlerId.health_check' w) := by
  refine ⟨rfl, ?_, fun _ => rfl⟩
  decide

/-- After `n` requests from `identity`, all falling in window bucket `b`,
the counter for `(identity, b)` holds exactly `n`. -/
theorem storeAfter_count (rl : RateLimiter) (identity : String)
    (times : Nat → Nat) (b : Nat) (n : Nat)
    (hb : ∀ i, i < n → windowBucket rl.config (times i) = b) :
    storeAfter rl identity times n identity b = n := by
  induction n with
  | zero => rfl
  | succ k ih =>
    have hk : windowBucket rl.config (times k) = b := hb k (Nat.lt_succ_self k)
    have ih' : storeAfter rl identity times k identity b = k :=
      ih (fun i hi => hb i (Nat.lt_succ_of_lt hi))
    simp [storeAfter, RateLimiter.check, hk, ih']

/-- C6: for every identity, every window configuration with a positive
window, and every schedule of request times that stay in the window bucket
of the first request, the first `max_requests` requests are allowed and the
`(max+1)`-th request is denied, carrying a retry-after equal to the time
remaining in the window, which is at most the window duration. -/
theorem rate_limiter_denies_after_max (rl : RateLimiter) (identity : String)
    (times : Nat → Nat)
    (_hw : 0 < rl.config.window_seconds)
    (hb : ∀ i, i ≤ rl.config.max_requests →
      windowBucket rl.config (times i) = windowBucket rl.config (times 0)) :
    (∀ k, k < rl.config.max_requests →
      (decisionAt rl identity times k).allow = true) ∧
    (decisionAt rl identity times rl.config.max_requests).allow = false ∧
    (decisionAt rl identity times rl.config.max_requests).retry_after =
      some (remainingWindow rl.config (times rl.config.max_requests)) ∧
    remainingWindow rl.config (times rl.config.max_requests) ≤
      rl.config.window_seconds := by
  have hcount : ∀ k, k ≤ rl.config.max_requests →
      storeAfter rl identity times k identity
        (windowBucket rl.config (times 0)) = k := by
    intro k hk
    exact storeAfter_count rl identity times (windowBucket rl.config (times 0)) k
      (fun i hi => hb i (Nat.le_of_lt (Nat.lt_of_lt_of_le hi hk)))
  refine ⟨?_, ?_, ?_, ?_⟩
  · intro k hk
    have h1 := hcount k (Nat.le_of_lt hk)
    have h2 := hb k (Nat.le_of_lt hk)
    have hlt : ¬ rl.config.max_requests < k + 1 := by omega
    simp [decisionAt, RateLimiter.check, h2, h1, hlt]
  · have h1 := hcount rl.config.max_requests (Nat.le_refl _)
    have h2 := hb rl.config.max_requests (Nat.le_refl _)
    have hlt : rl.config.max_requests < rl.config.max_requests + 1 :=
      Nat.lt_succ_self _
    simp [decisionAt, RateLimiter.check, h2, h1, hlt]
  · have h1 := hcount rl.config.max_requests (Nat.le_refl _)
    have h2 := hb rl.config.max_requests (Nat.le_refl _)
    have hlt : rl.config.max_requests < rl.config.max_requests + 1 :=
      Nat.lt_succ_self _
    simp [decisionAt, RateLimiter.check, h2, h1, hlt]
  · exact Nat.sub_le _ _

/-- C6 witness: the spec's own scenario — identity "X", a 60-second window
with max 5, six requests at time 0: the first five are allowed, the sixth
is denied with retry-after 60 ≤ 60. -/
theorem rate_limiter_denies_after_max_witness :
    0 < (60 : Nat) ∧
    ((∀ k, k < 5 → (decisionAt ⟨⟨60, 5⟩⟩ "X" (fun _ => 0) k).allow = true) ∧
     (decisionAt ⟨⟨60, 5⟩⟩ "X" (fun _ => 0) 5).allow = false ∧
     (decisionAt ⟨⟨60, 5⟩⟩ "X" (fun _ => 0) 5).retry_after =
       some (remainingWindow ⟨60, 5⟩ 0) ∧
     remainingWindow ⟨60, 5⟩ 0 ≤ 60) :=
  ⟨by decide,
   rate_limiter_denies_after_max ⟨⟨60, 5⟩⟩ "X" (fun _ => 0) (by decide)
     (fun _ _ => rfl)⟩

/-- C10 witness at a concrete settings value. -/
theorem health_double_registration_equiv_witness :
    ((mainModule ⟨[], true, ["*"], ["*"]⟩).routes.filter
        (fun r => r.path = "/health")).map Route.handler =
      [HandlerId.health_check, HandlerId.health_check'] ∧
    HandlerId.health_check ≠ HandlerId.health_check' ∧
    (∀ w : WorldState,
      handlerFun HandlerId.health_check w = handlerFun HandlerId.health_check' w) :=
  health_double_registration_equiv ⟨[], true, ["*"], ["*"]⟩

end SocialSuit
